import Mathlib

/-!
# Verification of the `validate_request` pipeline
(`oauth2server/apps/accounts/decorators.py`)

Shallow embedding of the request-validation decorator: a linear pipeline of
extraction stages (`_extract_client`, `_extract_username`, `_extract_active`,
`_extract_firstname`, `_extract_lastname`, and the disabled `_extract_scope`)
run over a Django request.  Python exceptions are modelled with `Except`;
the typed OAuth exceptions of `proj.exceptions` and the untyped runtime
errors (`ValueError` from tuple unpacking, `TypeError` from `base64.b64decode`,
`AttributeError` from attribute access on `None`) are distinct constructors.

External collaborators (the Django ORM models, `validate_email`, `settings`)
are supplied through an `Env` record, per the spec's interface boundary.
-/

namespace OAuth2

/-- Error kinds: the typed exceptions raised by `decorators.py`
(from `proj.exceptions`) together with the untyped Python runtime errors
that its unguarded code paths can raise. -/
inductive Err where
  | clientCredentialsRequired
  | invalidClientCredentials
  | usernameRequired
  | passwordRequired
  | invalidUserCredentials
  | duplicateUser
  /-- Python `ValueError`: tuple unpacking of a list whose length is not 2
      (`auth_method, auth = re.split(...)` and `client_id, client_secret = ....split(':')`). -/
  | valueError
  /-- Python 2 `base64.b64decode` turns `binascii.Error` ("Incorrect padding")
      into a `TypeError`. -/
  | typeError
  /-- Python `AttributeError`: setting an attribute on `request.user` when it is `None`. -/
  | attributeError
deriving DecidableEq, Repr

/-- A Python value assigned to `user.account_is_verified`: either the raw
request string or the literal `False`. -/
inductive PyVal where
  | str (s : String)
  | bool (b : Bool)
deriving DecidableEq, Repr

/-- Python truthiness of such a value: a string is truthy iff non-empty. -/
def pyTruthy : PyVal → Bool
  | .str s => !s.isEmpty
  | .bool b => b

/-- A row of the `OAuthClient` table (apps/credentials/models.py, outside src/):
only the fields the decorator reads. -/
structure OAuthClient where
  client_id : String
  password : String
deriving DecidableEq, Repr

/-- A row of the `OAuthScope` table (apps/tokens/models.py, outside src/):
a scope name and its default flag. -/
structure OAuthScope where
  scope : String
  is_default : Bool
deriving DecidableEq, Repr

/-- The user candidate constructed by `_extract_username`:
`OAuthUser(email=..., password=..., first_name=..., last_name=...)`,
with the `account_is_verified` model field initially unset (`none`). -/
structure OAuthUser where
  email : String
  password : String
  first_name : String
  last_name : String
  account_is_verified : Option PyVal
deriving DecidableEq, Repr

/-- Modelled from the spec: the external collaborators of the pipeline —
the Credential Store Adapter ("lookup-by-id and secret-verification
capability for clients; lookup/uniqueness-check capability for users;
lookup-by-name capability for scopes"), Django's `validate_email`, and the
server configuration.  The concrete code (`apps/credentials/models.py`,
`apps/tokens/models.py`, `proj/settings.py`) is not under src/. -/
structure Env where
  /-- The client store; `OAuthClient.objects.get(client_id=...)` is lookup by id. -/
  clients : List OAuthClient
  /-- `client.verify_password(secret)`: secret verification, delegated to the store. -/
  verify_password : OAuthClient → String → Bool
  /-- Django `validate_email`: email-format validation (raises `ValidationError` on failure). -/
  valid_email : String → Bool
  /-- Emails of already existing users; `OAuthUser.validate_unique()` fails
      exactly when the candidate's email collides with one of them. -/
  existing_emails : List String
  /-- `settings.OAUTH2_SERVER['IGNORE_CLIENT_REQUESTED_SCOPE']`. -/
  ignore_client_requested_scope : Bool
  /-- The scope store; `OAuthScope.objects.filter` selects rows from it in order. -/
  scopes : List OAuthScope

/-- The inbound Django request: the `Authorization` header
(`request.META['HTTP_AUTHORIZATION']`), the form body (`request.POST`),
the query string (`request.GET`), and `request.grant_type`, which an
upstream collaborator has already attached. -/
structure Request where
  http_authorization : Option String
  post : List (String × String)
  get : List (String × String)
  grant_type : String

/-- `querydict[key]`: field lookup in POST/GET data (`KeyError` ↦ `none`). -/
def qget (l : List (String × String)) (k : String) : Option String :=
  (l.find? (fun p => p.1 == k)).map (·.2)

/-- The accumulated authentication context: the attributes the stages
attach to the mutable `request` object. -/
structure Ctx where
  client : Option OAuthClient
  user : Option OAuthUser
  /-- the stray `request.account_verified` attribute set by `_extract_active`
      when the field is absent from both sources. -/
  account_verified : Option Bool
  scopes : Option (List OAuthScope)
deriving DecidableEq, Repr

/-- The context at the start of the pipeline: nothing attached yet. -/
def initialCtx : Ctx :=
  { client := none, user := none, account_verified := none, scopes := none }

/-! ## Python string and base64 primitives used by `_extract_client` -/

/-- Python `str.lower()` (ASCII case folding, as applied to header tokens). -/
def pyLower (s : String) : String := String.mk (s.data.map Char.toLower)

/-- Split a character list at every separator character, keeping empty
pieces: the common core of Python's `re.split` on a single-character
alternation and `str.split(sep)` for a one-character `sep`. -/
def pySplit (p : Char → Bool) : List Char → List (List Char)
  | [] => [[]]
  | c :: rest =>
    if p c then [] :: pySplit p rest
    else
      match pySplit p rest with
      | [] => [[c]]
      | piece :: pieces => (c :: piece) :: pieces

/-- `re.split(':|;|,| ', header)`: split on every occurrence of
colon, semicolon, comma or space, keeping empty pieces. -/
def reSplitAuth (s : String) : List String :=
  (pySplit (fun c => c == ':' || c == ';' || c == ',' || c == ' ') s.data).map String.mk

/-- Value of a character in the standard base64 alphabet. -/
def b64Val (c : Char) : Option Nat :=
  if 'A' ≤ c && c ≤ 'Z' then some (c.toNat - 65)
  else if 'a' ≤ c && c ≤ 'z' then some (c.toNat - 97 + 26)
  else if '0' ≤ c && c ≤ '9' then some (c.toNat - 48 + 52)
  else if c == '+' then some 62
  else if c == '/' then some 63
  else none

/-- `binascii_find_valid`: the next character that is in the base64
alphabet or is the pad character. -/
def b64FindValid : List Char → Option Char
  | [] => none
  | c :: rest => if c == '=' || (b64Val c).isSome then some c else b64FindValid rest

/-- CPython 2's `binascii.a2b_base64` main loop: skip characters outside the
alphabet, handle pad sequences, shift six bits per alphabet character into
`leftchar` and emit a byte whenever eight bits are available; fail with
"Incorrect padding" when bits are left over at the end. -/
def a2bBase64Aux : List Char → Nat → Nat → Nat → List Char → Except Unit (List Char)
  | [], _, _, leftbits, acc =>
      if leftbits ≠ 0 then .error () else .ok acc.reverse
  | c :: rest, quadPos, leftchar, leftbits, acc =>
      if c.toNat > 0x7f || c == '\r' || c == '\n' || c == ' ' then
        a2bBase64Aux rest quadPos leftchar leftbits acc
      else if c == '=' then
        if quadPos < 2 || (quadPos == 2 && b64FindValid rest != some '=') then
          a2bBase64Aux rest quadPos leftchar leftbits acc
        else
          -- a pad sequence means no more input: leftbits is discarded
          .ok acc.reverse
      else
        match b64Val c with
        | none => a2bBase64Aux rest quadPos leftchar leftbits acc
        | some v =>
            let leftchar' := leftchar * 64 + v
            let leftbits' := leftbits + 6
            if leftbits' ≥ 8 then
              let lb := leftbits' - 8
              a2bBase64Aux rest ((quadPos + 1) % 4) (leftchar' % 2 ^ lb) lb
                (Char.ofNat (leftchar' / 2 ^ lb % 256) :: acc)
            else
              a2bBase64Aux rest ((quadPos + 1) % 4) leftchar' leftbits' acc

/-- Python 2 `base64.b64decode` (standard alphabet): `binascii.a2b_base64`,
with `binascii.Error` re-raised as `TypeError`. -/
def b64decode (s : String) : Except Unit String :=
  (a2bBase64Aux s.data 0 0 0 []).map String.mk

/-- Python `str.split(':')`: split on every colon, keeping empty pieces. -/
def pySplitColon (s : String) : List String :=
  (pySplit (· == ':') s.data).map String.mk

/-- Python `str.split(' ')`: split on every single space, keeping empty
pieces (used by `_extract_scope`). -/
def pySplitSpace (s : String) : List String :=
  (pySplit (· == ' ') s.data).map String.mk

/-! ## `_extract_client` (decorators.py lines 62–106) -/

/-- Lines 73–80 of `_extract_client`, the header phase, run when
`HTTP_AUTHORIZATION` is present:
`auth_method, auth = re.split(':|;|,| ', auth_header)` (a `ValueError` unless
exactly two tokens), and when the method is `basic`,
`client_id, client_secret = base64.b64decode(auth).split(':')` (a `TypeError`
on bad base64, a `ValueError` unless the decoding splits into exactly two
parts).  Yields the `client_id, client_secret` variables, `None` when the
header is absent or its scheme is not Basic. -/
def headerPhase (req : Request) : Except Err (Option String × Option String) :=
  match req.http_authorization with
  | none => .ok (none, none)
  | some auth_header =>
    match reSplitAuth auth_header with
    | [auth_method, auth] =>
      if pyLower auth_method == "basic" then
        match b64decode auth with
        | .error _ => .error .typeError
        | .ok decoded =>
          match pySplitColon decoded with
          | [i, s] => .ok (some i, some s)
          | _ => .error .valueError
      else .ok (none, none)
    | _ => .error .valueError

/-- Lines 85–94 of `_extract_client`: the POST-then-GET fallback.  If POST
carries both fields use them; on the `KeyError` try GET; on its `KeyError`
raise `ClientCredentialsRequiredException`.  (The partial assignment
`client_id = request.POST['client_id']` before the `KeyError` on the missing
secret has no net effect: the GET branch either overwrites both values or
raises.) -/
def credsFallback (req : Request) : Except Err (String × String) :=
  match qget req.post "client_id", qget req.post "client_secret" with
  | some i, some s => .ok (i, s)
  | _, _ =>
    match qget req.get "client_id", qget req.get "client_secret" with
    | some i, some s => .ok (i, s)
    | _, _ => .error .clientCredentialsRequired

/-- Lines 70–94 of `_extract_client`: resolve the `(client_id, client_secret)`
pair.  The fallback is entered exactly when the header phase left either
variable `None` or empty (`if not client_id or not client_secret`). -/
def extractCreds (req : Request) : Except Err (String × String) :=
  match headerPhase req with
  | .error e => .error e
  | .ok (cid, csec) =>
    match cid, csec with
    | some i, some s => if i.isEmpty || s.isEmpty then credsFallback req else .ok (i, s)
    | _, _ => credsFallback req

/-- Lines 96–106 of `_extract_client`: look the client up
(`OAuthClient.objects.get(client_id=client_id)`, `DoesNotExist` ↦
`InvalidClientCredentialsException`), verify the secret
(failure ↦ `InvalidClientCredentialsException`), and attach the client
to the request. -/
def extract_client (env : Env) (req : Request) (ctx : Ctx) : Except Err Ctx :=
  match extractCreds req with
  | .error e => .error e
  | .ok (client_id, client_secret) =>
    match env.clients.find? (fun c => c.client_id == client_id) with
    | none => .error .invalidClientCredentials
    | some client =>
      if env.verify_password client client_secret then
        .ok { ctx with client := some client }
      else .error .invalidClientCredentials

/-! ## `_extract_username` (decorators.py lines 108–159) -/

/-- `_extract_username`: username from POST then GET (`UsernameRequiredException`
when absent from both); `validate_email` (`ValidationError` ↦
`InvalidUserCredentialsException`); password from POST then GET
(`PasswordRequiredException` when absent from both); construct
`OAuthUser(email=username, password=password, first_name="No name given",
last_name="No name given")` and run `validate_unique()` (collision ↦
`DuplicateUserException`); attach the candidate to the request. -/
def extract_username (env : Env) (req : Request) (ctx : Ctx) : Except Err Ctx :=
  match qget req.post "username" <|> qget req.get "username" with
  | none => .error .usernameRequired
  | some username =>
    if !env.valid_email username then .error .invalidUserCredentials
    else
      match qget req.post "password" <|> qget req.get "password" with
      | none => .error .passwordRequired
      | some password =>
        let user : OAuthUser :=
          { email := username, password := password,
            first_name := "No name given", last_name := "No name given",
            account_is_verified := none }
        if env.existing_emails.contains username then .error .duplicateUser
        else .ok { ctx with user := some user }

/-! ## `_extract_firstname`, `_extract_lastname` (lines 161–219) -/

/-- `_extract_firstname`: first name from POST then GET; when absent from both,
set the placeholder `"No name given"`.  Setting an attribute on
`request.user` when no user was attached would be a Python `AttributeError`. -/
def extract_firstname (req : Request) (ctx : Ctx) : Except Err Ctx :=
  match ctx.user with
  | none => .error .attributeError
  | some u =>
    match qget req.post "first_name" with
    | some first_name => .ok { ctx with user := some { u with first_name := first_name } }
    | none =>
      match qget req.get "first_name" with
      | some first_name => .ok { ctx with user := some { u with first_name := first_name } }
      | none => .ok { ctx with user := some { u with first_name := "No name given" } }

/-- `_extract_lastname`: last name from POST then GET; when absent from both,
set the placeholder `"No name given"`. -/
def extract_lastname (req : Request) (ctx : Ctx) : Except Err Ctx :=
  match ctx.user with
  | none => .error .attributeError
  | some u =>
    match qget req.post "last_name" with
    | some last_name => .ok { ctx with user := some { u with last_name := last_name } }
    | none =>
      match qget req.get "last_name" with
      | some last_name => .ok { ctx with user := some { u with last_name := last_name } }
      | none => .ok { ctx with user := some { u with last_name := "No name given" } }

/-! ## `_extract_active` (lines 221–245) -/

/-- `_extract_active`: read `account_verified` from POST then GET and assign
the raw string to `user.account_is_verified`; when absent from both, assign
the Python literal `False` (and also set the stray `request.account_verified`
attribute to `False`). -/
def extract_active (req : Request) (ctx : Ctx) : Except Err Ctx :=
  match ctx.user with
  | none => .error .attributeError
  | some u =>
    match qget req.post "account_verified" with
    | some accountVerified =>
        .ok { ctx with user := some { u with account_is_verified := some (.str accountVerified) } }
    | none =>
      match qget req.get "account_verified" with
      | some accountVerified =>
          .ok { ctx with user := some { u with account_is_verified := some (.str accountVerified) } }
      | none =>
          .ok { ctx with
                  user := some { u with account_is_verified := some (.bool false) },
                  account_verified := some false }

/-! ## `_extract_scope` (lines 247–277) -/

/-- `OAuthScope.objects.filter(is_default=True)`: the server-configured
default scope set. -/
def defaultScopes (env : Env) : List OAuthScope := env.scopes.filter (·.is_default)

/-- Lines 265–271 of `_extract_scope`: the scope-name list — the `scope`
field, POST then GET, split on the single space character (`.split(' ')`);
absent from both ↦ `[]`. -/
def requestedScopeNames (req : Request) : List String :=
  match qget req.post "scope" with
  | some s => pySplitSpace s
  | none =>
    match qget req.get "scope" with
    | some s => pySplitSpace s
    | none => []

/-- `OAuthScope.objects.filter(scope__in=scopes)`: the known scopes whose
name occurs in the requested list. -/
def scopeSelection (env : Env) (req : Request) : List OAuthScope :=
  env.scopes.filter (fun sc => (requestedScopeNames req).contains sc.scope)

/-- `_extract_scope`: a no-op unless `request.grant_type` is
`client_credentials` or `password`.  With the
`IGNORE_CLIENT_REQUESTED_SCOPE` setting on, attach the default scopes.
Otherwise attach the known scopes named by the space-separated `scope`
field, falling back to the default scopes when that selection is empty. -/
def extract_scope (env : Env) (req : Request) (ctx : Ctx) : Ctx :=
  if req.grant_type != "client_credentials" && req.grant_type != "password" then ctx
  else if env.ignore_client_requested_scope then
    { ctx with scopes := some (defaultScopes env) }
  else
    let selected := scopeSelection env req
    if selected.length = 0 then { ctx with scopes := some (defaultScopes env) }
    else { ctx with scopes := some selected }

/-! ## The decorator (lines 279–290) -/

/-- The pipeline body of `decorator`: `_extract_client`, `_extract_username`,
`_extract_active`, `_extract_firstname`, `_extract_lastname` in that order
(`_extract_scope` is commented out), then the wrapped handler
`func(request, ...)` receives the enriched request. A raised exception
propagates immediately, skipping everything after it. -/
def decorator (env : Env) (req : Request) : Except Err Ctx :=
  match extract_client env req initialCtx with
  | .error e => .error e
  | .ok ctx1 =>
    match extract_username env req ctx1 with
    | .error e => .error e
    | .ok ctx2 =>
      match extract_active req ctx2 with
      | .error e => .error e
      | .ok ctx3 =>
        match extract_firstname req ctx3 with
        | .error e => .error e
        | .ok ctx4 =>
          match extract_lastname req ctx4 with
          | .error e => .error e
          | .ok ctx5 => .ok ctx5

/-- Labels for the pipeline stages and the protected handler. -/
inductive Stage where
  | client
  | username
  | active
  | firstname
  | lastname
  | scope
  | handler
deriving DecidableEq, Repr

/-- The decorator instrumented with an execution trace: each stage's label is
recorded when (and only when) that stage starts executing, and `Stage.handler`
is recorded when the wrapped handler is invoked. -/
def decoratorTrace (env : Env) (req : Request) : List Stage × Except Err Ctx :=
  match extract_client env req initialCtx with
  | .error e => ([.client], .error e)
  | .ok ctx1 =>
    match extract_username env req ctx1 with
    | .error e => ([.client, .username], .error e)
    | .ok ctx2 =>
      match extract_active req ctx2 with
      | .error e => ([.client, .username, .active], .error e)
      | .ok ctx3 =>
        match extract_firstname req ctx3 with
        | .error e => ([.client, .username, .active, .firstname], .error e)
        | .ok ctx4 =>
          match extract_lastname req ctx4 with
          | .error e => ([.client, .username, .active, .firstname, .lastname], .error e)
          | .ok ctx5 =>
            ([.client, .username, .active, .firstname, .lastname, .handler], .ok ctx5)

/-! ## Claim-side definitions

`credsSpec` and `wsRequestedNames` are written from the spec's words, to be
compared with the code-side definitions above.  The remaining definitions
name observable pieces of the code-side behavior used in theorem statements. -/

/-- The `(id, secret)` pair the Authorization header yields: present, Basic
scheme, base64 payload decodes, decoding splits on the single colon into an
id and a secret, and both are non-empty (a header leaving either value empty
does not count as yielding both, per `if not client_id or not client_secret`). -/
def headerCreds (req : Request) : Option (String × String) :=
  match req.http_authorization with
  | none => none
  | some auth_header =>
    match reSplitAuth auth_header with
    | [auth_method, auth] =>
      if pyLower auth_method == "basic" then
        match b64decode auth with
        | .error _ => none
        | .ok decoded =>
          match pySplitColon decoded with
          | [i, s] => if i.isEmpty || s.isEmpty then none else some (i, s)
          | _ => none
      else none
    | _ => none

/-- The pair the form body yields when it carries both fields. -/
def postCreds (req : Request) : Option (String × String) :=
  match qget req.post "client_id", qget req.post "client_secret" with
  | some i, some s => some (i, s)
  | _, _ => none

/-- The pair the query string yields when it carries both fields. -/
def getCreds (req : Request) : Option (String × String) :=
  match qget req.get "client_id", qget req.get "client_secret" with
  | some i, some s => some (i, s)
  | _, _ => none

/-- The Authorization header, when present, parses cleanly: it splits into
exactly two tokens under the separator set `: ; , space`, and when the scheme
is Basic the payload decodes under base64 and the decoding contains exactly
one colon.  Outside this set the header phase raises an untyped Python error. -/
def headerParses (req : Request) : Bool :=
  match req.http_authorization with
  | none => true
  | some auth_header =>
    match reSplitAuth auth_header with
    | [auth_method, auth] =>
      if pyLower auth_method == "basic" then
        match b64decode auth with
        | .error _ => false
        | .ok decoded => (pySplitColon decoded).length == 2
      else true
    | _ => false

/-- Spec-side credential selection, from the spec's words: "First source that
yields both values wins; sources are not merged", in the order header, form
body, query; nothing yields both ↦ `ClientCredentialsRequired`. -/
def credsSpec (req : Request) : Except Err (String × String) :=
  match headerCreds req with
  | some p => .ok p
  | none =>
    match postCreds req with
    | some p => .ok p
    | none =>
      match getCreds req with
      | some p => .ok p
      | none => .error .clientCredentialsRequired

/-- Spec-side scope-name list, from the spec's words: the `scope` field "as a
whitespace-separated list of names". -/
def wsRequestedNames (s : String) : List String :=
  (pySplit (·.isWhitespace) s.data).map String.mk

/-! ## Concrete environments and requests for witnesses and counterexamples -/

/-- A store with one client `c1` (secret `sek`), one registered user email,
three scopes of which only `basic` is a default, and the scope override off. -/
def envW : Env :=
  { clients := [{ client_id := "c1", password := "sek" }],
    verify_password := fun c s => c.password == s,
    valid_email := fun s => s == "user@example.com" || s == "taken@example.com",
    existing_emails := ["taken@example.com"],
    ignore_client_requested_scope := false,
    scopes := [⟨"read", false⟩, ⟨"write", false⟩, ⟨"basic", true⟩] }

/-- A fully valid request: client credentials and a fresh user in the form
body, no optional fields. -/
def reqW : Request :=
  { http_authorization := none,
    post := [("client_id", "c1"), ("client_secret", "sek"),
             ("username", "user@example.com"), ("password", "pw")],
    get := [], grant_type := "password" }

/-- The context after `_extract_client` succeeds on `reqW`. -/
def ctxW1 : Ctx := { initialCtx with client := some { client_id := "c1", password := "sek" } }

/-- The user candidate constructed from `reqW`. -/
def userW : OAuthUser :=
  { email := "user@example.com", password := "pw",
    first_name := "No name given", last_name := "No name given",
    account_is_verified := none }

/-- The context after `_extract_username` also succeeds on `reqW`. -/
def ctxW2 : Ctx := { ctxW1 with user := some userW }

/-- A request whose Basic header payload decodes to `abc`: no colon to split on. -/
def reqNoColon : Request :=
  { http_authorization := some "Basic YWJj", post := [], get := [], grant_type := "password" }

/-- A request whose Basic header payload `YQ` has incorrect base64 padding. -/
def reqBadPad : Request :=
  { http_authorization := some "Basic YQ", post := [], get := [], grant_type := "password" }

/-- A malformed Basic header (payload decodes to `ab`, no colon) together with
full client credentials in the form body. -/
def reqHeaderAndForm : Request :=
  { http_authorization := some "Basic YWI=",
    post := [("client_id", "f"), ("client_secret", "g")],
    get := [], grant_type := "password" }

/-- A Basic header whose payload decodes to `b`: a single component, no form
or query credentials. -/
def reqSingleComp : Request :=
  { http_authorization := some "Basic Yg==", post := [], get := [], grant_type := "password" }

/-- A clean Basic header (payload decodes to `c:d`) alongside form credentials. -/
def reqHeaderWins : Request :=
  { http_authorization := some "Basic Yzpk",
    post := [("client_id", "f"), ("client_secret", "g")],
    get := [], grant_type := "password" }

/-- A clean Basic header whose payload decodes to `c:` — an id with an empty
secret — alongside full form credentials. -/
def reqEmptySecretHeader : Request :=
  { http_authorization := some "Basic Yzo=",
    post := [("client_id", "f"), ("client_secret", "g")],
    get := [], grant_type := "password" }

/-- Form fields present but both empty, alongside non-empty query fields. -/
def reqEmptyFormCreds : Request :=
  { http_authorization := none,
    post := [("client_id", ""), ("client_secret", "")],
    get := [("client_id", "a"), ("client_secret", "b")],
    grant_type := "password" }

/-- A request with no credentials anywhere. -/
def reqEmpty : Request :=
  { http_authorization := none, post := [], get := [], grant_type := "password" }

/-- The spec's existence probe: `Basic base64("nope:anything")` for a client
id that is not in the store. -/
def reqUnknownClient : Request :=
  { http_authorization := some "Basic bm9wZTphbnl0aGluZw==",
    post := [], get := [], grant_type := "password" }

/-- The known client `c1` with a wrong secret, via form fields. -/
def reqWrongSecret : Request :=
  { http_authorization := none,
    post := [("client_id", "c1"), ("client_secret", "wrongsecret")],
    get := [], grant_type := "password" }

/-- Grant type `password`, override off, `scope` = `read⟨tab⟩write`:
tab-separated names of two known scopes. -/
def reqScopeTab : Request :=
  { http_authorization := none, post := [("scope", "read\twrite")],
    get := [], grant_type := "password" }

/-- Grant type `client_credentials`, override off, `scope` = `read write`:
two known, non-default scope names separated by a space. -/
def reqScopeKnown : Request :=
  { http_authorization := none, post := [("scope", "read write")],
    get := [], grant_type := "client_credentials" }

/-- A request carrying the literal string `"false"` for `account_verified`. -/
def reqVerifiedFalse : Request :=
  { http_authorization := none, post := [("account_verified", "false")],
    get := [], grant_type := "password" }

/-! ## Helper lemmas -/

theorem credsFallback_eq (req : Request) :
    credsFallback req =
      match postCreds req with
      | some p => Except.ok p
      | none =>
        match getCreds req with
        | some p => Except.ok p
        | none => Except.error Err.clientCredentialsRequired := by
  unfold credsFallback postCreds getCreds
  cases qget req.post "client_id" <;> cases qget req.post "client_secret" <;>
    cases qget req.get "client_id" <;> cases qget req.get "client_secret" <;> rfl

/-- The code-side credential selection agrees with the spec-side one on every
request whose Authorization header parses cleanly. -/
theorem extractCreds_eq_credsSpec (req : Request) (h : headerParses req = true) :
    extractCreds req = credsSpec req := by
  unfold extractCreds credsSpec headerPhase headerCreds
  unfold headerParses at h
  cases hA : req.http_authorization with
  | none => simp only; exact credsFallback_eq req
  | some a =>
    rw [hA] at h
    dsimp only at h ⊢
    cases hs : reSplitAuth a with
    | nil => rw [hs] at h; simp at h
    | cons m rest =>
      cases rest with
      | nil => rw [hs] at h; simp at h
      | cons auth rest2 =>
        cases rest2 with
        | cons x xs => rw [hs] at h; simp at h
        | nil =>
          rw [hs] at h
          dsimp only at h
          simp only [hs]
          cases hb : pyLower m == "basic" with
          | false =>
            simp only [Bool.false_eq_true, if_false]
            rw [credsFallback_eq]
          | true =>
            rw [hb] at h
            simp only [eq_self_iff_true, if_true] at h ⊢
            cases hd : b64decode auth with
            | error e => rw [hd] at h; simp at h
            | ok d =>
              rw [hd] at h
              dsimp only at h
              simp only [hd]
              cases hc : pySplitColon d with
              | nil => rw [hc] at h; simp at h
              | cons i rest3 =>
                cases rest3 with
                | nil => rw [hc] at h; simp at h
                | cons s rest4 =>
                  cases rest4 with
                  | cons y ys => rw [hc] at h; simp at h
                  | nil =>
                    simp only [hc]
                    cases he : i.isEmpty || s.isEmpty with
                    | true =>
                      simp only [eq_self_iff_true, if_true]
                      rw [credsFallback_eq]
                    | false =>
                      simp only [Bool.false_eq_true, if_false]

/-! ## Claim C2 -/

/-- Claim C2 (code-bug evaluation): a present Authorization header that is not
decodable as `id:secret` under the Basic scheme does not surface as the
missing/invalid-credential kind: a payload decoding to a colon-free string
aborts client extraction with the untyped `ValueError`, and a payload with
incorrect base64 padding aborts it with the untyped `TypeError` — neither is
`ClientCredentialsRequired` or `InvalidClientCredentials`. -/
theorem C2_malformed_header_untyped_error :
    extractCreds reqNoColon = Except.error Err.valueError ∧
    extractCreds reqBadPad = Except.error Err.typeError ∧
    Err.valueError ≠ Err.clientCredentialsRequired ∧
    Err.valueError ≠ Err.invalidClientCredentials ∧
    Err.typeError ≠ Err.clientCredentialsRequired ∧
    Err.typeError ≠ Err.invalidClientCredentials := by
  refine ⟨by rfl, by rfl, by decide, by decide, by decide, by decide⟩

/-! ## Claim C3 -/

/-- Claim C3 (counterexample): three runs refute the claim as stated, one
per edit of the amendment.
(i) `reqHeaderAndForm` — a present but malformed Basic header (payload
decodes to `ab`, no colon) with full form credentials: the first source
yielding both values is the form, but the code aborts with `ValueError`
instead of using it.
(ii) `reqEmptySecretHeader` — a Basic header decoding to `c:`, an id with an
empty secret, with form credentials also present: the claim's "when a Basic
header and form fields are both present, the header's decoded values are the
ones used" demands `("c", "")`, but the code falls through and uses the
form's `("f", "g")`.
(iii) `reqEmptyFormCreds` — form fields present but both empty, query fields
non-empty: the code uses the form's empty pair, so "yields both" cannot be
read as "yields both non-empty" for the form and query sources either. -/
theorem C3_counterexample :
    (postCreds reqHeaderAndForm = some ("f", "g") ∧
      extractCreds reqHeaderAndForm = Except.error Err.valueError ∧
      (Except.error Err.valueError : Except Err (String × String)) ≠ Except.ok ("f", "g")) ∧
    (b64decode "Yzo=" = Except.ok "c:" ∧
      pySplitColon "c:" = ["c", ""] ∧
      postCreds reqEmptySecretHeader = some ("f", "g") ∧
      extractCreds reqEmptySecretHeader = Except.ok ("f", "g") ∧
      (("c", "") : String × String) ≠ ("f", "g")) ∧
    (postCreds reqEmptyFormCreds = some ("", "") ∧
      getCreds reqEmptyFormCreds = some ("a", "b") ∧
      extractCreds reqEmptyFormCreds = Except.ok ("", "") ∧
      (("", "") : String × String) ≠ ("a", "b")) := by
  refine ⟨⟨by rfl, by rfl, fun h => Except.noConfusion h⟩,
          ⟨by rfl, by rfl, by rfl, by rfl, by decide⟩,
          ⟨by rfl, by rfl, by rfl, by decide⟩⟩

/-- A header that yields a credential pair yields it non-empty: the falsiness
test `if not client_id or not client_secret` sends an empty decoded component
to the fallback. -/
theorem headerCreds_nonempty (req : Request) (i s : String)
    (h : headerCreds req = some (i, s)) : i ≠ "" ∧ s ≠ "" := by
  unfold headerCreds at h
  repeat' split at h
  all_goals cases h
  rename_i hcond
  rw [Bool.or_eq_true, not_or] at hcond
  exact ⟨fun hi => hcond.1 (by rw [hi]; rfl), fun hs => hcond.2 (by rw [hs]; rfl)⟩

/-- Claim C3 (amended): provided the Authorization header, when present,
parses cleanly (two tokens; when the scheme is Basic, the payload decodes
and contains exactly one colon), client credentials are selected in the
fixed order header, form body, query string; the first source that yields
both credentials is used exclusively and sources are never merged — where
the header yields both only when its decoded id and secret are both
non-empty (an empty component falls through, per
`if not client_id or not client_secret`), while the form and the query
yield both exactly when both fields are present, empty or not
(`postCreds`/`getCreds` test presence only). -/
theorem C3_extraction_order (req : Request) (h : headerParses req = true) :
    extractCreds req = credsSpec req ∧
    (∀ i s, headerCreds req = some (i, s) → i ≠ "" ∧ s ≠ "") ∧
    (∀ i s, headerCreds req = some (i, s) → extractCreds req = Except.ok (i, s)) ∧
    (headerCreds req = none → ∀ i s, postCreds req = some (i, s) →
        extractCreds req = Except.ok (i, s)) ∧
    (headerCreds req = none → postCreds req = none → ∀ i s, getCreds req = some (i, s) →
        extractCreds req = Except.ok (i, s)) := by
  have he := extractCreds_eq_credsSpec req h
  refine ⟨he, fun i s hh => headerCreds_nonempty req i s hh, ?_, ?_, ?_⟩
  · intro i s hh
    rw [he]; unfold credsSpec; rw [hh]
  · intro hh i s hp
    rw [he]; unfold credsSpec; rw [hh, hp]
  · intro hh hp i s hg
    rw [he]; unfold credsSpec; rw [hh, hp, hg]

/-- Witness for C3: the clean Basic header decoding to `c:d` wins over the
form fields that are also present. -/
theorem C3_extraction_order_witness :
    extractCreds reqHeaderWins = Except.ok ("c", "d") :=
  (C3_extraction_order reqHeaderWins (by rfl)).2.2.1 "c" "d" (by rfl)

/-! ## Claim C4 -/

/-- Claim C4 (counterexample): a request where no source yields both
credentials — the Basic header decodes to the single component `b`, the form
body and the query string are empty — does not produce
`ClientCredentialsRequired`: the code aborts with the untyped `ValueError`. -/
theorem C4_counterexample :
    headerCreds reqSingleComp = none ∧ postCreds reqSingleComp = none ∧
    getCreds reqSingleComp = none ∧
    extract_client envW reqSingleComp initialCtx = Except.error Err.valueError ∧
    Err.valueError ≠ Err.clientCredentialsRequired := by
  refine ⟨by rfl, by rfl, by rfl, by rfl, by decide⟩

/-- Claim C4 (amended): when the Authorization header (if present) parses
cleanly and no source — header, form body, or query string — yields both a
client id and a client secret, the pipeline fails with
`ClientCredentialsRequired`. -/
theorem C4_no_creds_required (env : Env) (req : Request) (ctx : Ctx)
    (hp : headerParses req = true)
    (h1 : headerCreds req = none) (h2 : postCreds req = none) (h3 : getCreds req = none) :
    extract_client env req ctx = Except.error Err.clientCredentialsRequired := by
  unfold extract_client
  rw [extractCreds_eq_credsSpec req hp]
  unfold credsSpec
  rw [h1, h2, h3]

/-- Witness for C4: the empty request is rejected with
`ClientCredentialsRequired`. -/
theorem C4_no_creds_required_witness :
    extract_client envW reqEmpty initialCtx = Except.error Err.clientCredentialsRequired :=
  C4_no_creds_required envW reqEmpty initialCtx (by rfl) (by rfl) (by rfl) (by rfl)

/-! ## Claim C5 -/

/-- Claim C5: a client id that is not in the store and an existing client
whose secret fails verification produce the same error kind
`InvalidClientCredentials`, so the client's existence is not observable from
the error. -/
theorem C5_invalid_client_same_kind
    (env₁ : Env) (req₁ : Request) (ctx₁ : Ctx) (i₁ s₁ : String)
    (env₂ : Env) (req₂ : Request) (ctx₂ : Ctx) (i₂ s₂ : String) (c₂ : OAuthClient)
    (h₁ : extractCreds req₁ = Except.ok (i₁, s₁))
    (hfind₁ : env₁.clients.find? (fun c => c.client_id == i₁) = none)
    (h₂ : extractCreds req₂ = Except.ok (i₂, s₂))
    (hfind₂ : env₂.clients.find? (fun c => c.client_id == i₂) = some c₂)
    (hver : env₂.verify_password c₂ s₂ = false) :
    extract_client env₁ req₁ ctx₁ = Except.error Err.invalidClientCredentials ∧
    extract_client env₂ req₂ ctx₂ = Except.error Err.invalidClientCredentials ∧
    extract_client env₁ req₁ ctx₁ = extract_client env₂ req₂ ctx₂ := by
  have e₁ : extract_client env₁ req₁ ctx₁ = Except.error Err.invalidClientCredentials := by
    unfold extract_client
    rw [h₁]
    dsimp only
    rw [hfind₁]
  have e₂ : extract_client env₂ req₂ ctx₂ = Except.error Err.invalidClientCredentials := by
    unfold extract_client
    rw [h₂]
    dsimp only
    rw [hfind₂]
    dsimp only
    rw [hver]
    simp
  exact ⟨e₁, e₂, e₁.trans e₂.symm⟩

/-- Witness for C5: `Basic base64("nope:anything")` with unknown id `nope`,
and form credentials `c1`/`wrongsecret` for the existing client `c1`, both
yield `InvalidClientCredentials`. -/
theorem C5_invalid_client_same_kind_witness :
    extract_client envW reqUnknownClient initialCtx
        = Except.error Err.invalidClientCredentials ∧
    extract_client envW reqWrongSecret initialCtx
        = Except.error Err.invalidClientCredentials := by
  have h := C5_invalid_client_same_kind envW reqUnknownClient initialCtx "nope" "anything"
      envW reqWrongSecret initialCtx "c1" "wrongsecret"
      { client_id := "c1", password := "sek" } (by rfl) (by rfl) (by rfl) (by rfl) (by rfl)
  exact ⟨h.1, h.2.1⟩

/-! ## Claim C6 -/

/-- Claim C6: the User Identity Extractor settles by cases — username absent
from form and query ↦ `UsernameRequired`; present but failing email
validation ↦ `InvalidUserCredentials`; password absent from both ↦
`PasswordRequired`; a user with that username already existing ↦
`DuplicateUser`; otherwise success with a candidate user carrying the given
username and password and both names set to `"No name given"`. -/
theorem C6_user_identity_cases (env : Env) (req : Request) (ctx : Ctx) :
    ((qget req.post "username" <|> qget req.get "username") = none →
        extract_username env req ctx = Except.error Err.usernameRequired) ∧
    (∀ u, (qget req.post "username" <|> qget req.get "username") = some u →
        env.valid_email u = false →
        extract_username env req ctx = Except.error Err.invalidUserCredentials) ∧
    (∀ u, (qget req.post "username" <|> qget req.get "username") = some u →
        env.valid_email u = true →
        (qget req.post "password" <|> qget req.get "password") = none →
        extract_username env req ctx = Except.error Err.passwordRequired) ∧
    (∀ u p, (qget req.post "username" <|> qget req.get "username") = some u →
        env.valid_email u = true →
        (qget req.post "password" <|> qget req.get "password") = some p →
        env.existing_emails.contains u = true →
        extract_username env req ctx = Except.error Err.duplicateUser) ∧
    (∀ u p, (qget req.post "username" <|> qget req.get "username") = some u →
        env.valid_email u = true →
        (qget req.post "password" <|> qget req.get "password") = some p →
        env.existing_emails.contains u = false →
        extract_username env req ctx = Except.ok { ctx with user := some {
          email := u, password := p, first_name := "No name given",
          last_name := "No name given", account_is_verified := none } }) := by
  refine ⟨?_, ?_, ?_, ?_, ?_⟩
  · intro h
    unfold extract_username
    rw [h]
  · intro u hu hv
    unfold extract_username
    rw [hu]
    dsimp only
    rw [hv]
    simp
  · intro u hu hv hp
    unfold extract_username
    rw [hu]
    dsimp only
    rw [hv]
    simp only [Bool.not_true, Bool.false_eq_true, if_false]
    rw [hp]
  · intro u p hu hv hp hd
    unfold extract_username
    rw [hu]
    dsimp only
    rw [hv]
    simp only [Bool.not_true, Bool.false_eq_true, if_false]
    rw [hp]
    dsimp only
    rw [hd]
    simp
  · intro u p hu hv hp hd
    unfold extract_username
    rw [hu]
    dsimp only
    rw [hv]
    simp only [Bool.not_true, Bool.false_eq_true, if_false]
    rw [hp]
    dsimp only
    rw [hd]
    simp

/-- Witness for C6: the fresh username and password of `reqW` pass all checks
and yield the candidate user with placeholder names. -/
theorem C6_user_identity_cases_witness :
    extract_username envW reqW initialCtx = Except.ok { initialCtx with user := some {
      email := "user@example.com", password := "pw", first_name := "No name given",
      last_name := "No name given", account_is_verified := none } } :=
  (C6_user_identity_cases envW reqW initialCtx).2.2.2.2 "user@example.com" "pw"
    (by rfl) (by rfl) (by rfl) (by rfl)

/-! ## Claim C7 -/

/-- Claim C7 (counterexample): grant type `password`, override off, and
`scope` set to `read⟨tab⟩write` where `read` and `write` are known scopes:
the whitespace-separated reading of the claim demands the non-empty
intersection `{read, write}`, but the code splits on the single space only,
finds no known scope named `read⟨tab⟩write`, and falls back to the default
set `{basic}`. -/
theorem C7_counterexample :
    envW.scopes.filter (fun sc => (wsRequestedNames "read\twrite").contains sc.scope)
        = [⟨"read", false⟩, ⟨"write", false⟩] ∧
    (extract_scope envW reqScopeTab initialCtx).scopes = some [⟨"basic", true⟩] ∧
    (some [(⟨"basic", true⟩ : OAuthScope)] : Option (List OAuthScope))
        ≠ some [⟨"read", false⟩, ⟨"write", false⟩] := by
  refine ⟨by rfl, by rfl, by decide⟩

/-- Claim C7 (amended): with grant type `client_credentials` or `password`,
the resolved scope set is exactly one of (a) the default set when the
ignore-client-requested-scope setting is on, (b) the selection of known
scopes named by the space-separated (not whitespace-separated) `scope` field
when that selection is non-empty, or (c) the default set when that selection
is empty; for every other grant type the resolver changes nothing. -/
theorem C7_scope_trichotomy (env : Env) (req : Request) (ctx : Ctx) :
    (req.grant_type ≠ "client_credentials" → req.grant_type ≠ "password" →
        extract_scope env req ctx = ctx) ∧
    (req.grant_type = "client_credentials" ∨ req.grant_type = "password" →
      (env.ignore_client_requested_scope = true →
          (extract_scope env req ctx).scopes = some (defaultScopes env)) ∧
      (env.ignore_client_requested_scope = false →
        (scopeSelection env req ≠ [] ∧
            (extract_scope env req ctx).scopes = some (scopeSelection env req)) ∨
        (scopeSelection env req = [] ∧
            (extract_scope env req ctx).scopes = some (defaultScopes env)))) := by
  constructor
  · intro h1 h2
    unfold extract_scope
    simp [h1, h2]
  · intro hg
    have hcond : (req.grant_type != "client_credentials" && req.grant_type != "password")
        = false := by
      rcases hg with h | h <;> simp [h]
    constructor
    · intro hi
      unfold extract_scope
      rw [hcond]
      simp only [Bool.false_eq_true, if_false]
      rw [hi]
      simp
    · intro hi
      unfold extract_scope
      rw [hcond]
      simp only [Bool.false_eq_true, if_false]
      rw [hi]
      simp only [Bool.false_eq_true, if_false]
      by_cases hsel : scopeSelection env req = []
      · right
        refine ⟨hsel, ?_⟩
        simp [hsel]
      · left
        refine ⟨hsel, ?_⟩
        have hlen : (scopeSelection env req).length ≠ 0 := by
          simpa [List.length_eq_zero] using hsel
        simp [hlen]

/-- Witness for C7: grant `client_credentials`, override off,
`scope=read write` with both names known and non-default resolves to exactly
those two scopes. -/
theorem C7_scope_trichotomy_witness :
    (extract_scope envW reqScopeKnown initialCtx).scopes
        = some [⟨"read", false⟩, ⟨"write", false⟩] := by
  have h := ((C7_scope_trichotomy envW reqScopeKnown initialCtx).2 (Or.inl rfl)).2 (by rfl)
  rcases h with ⟨-, heq⟩ | ⟨hnil, -⟩
  · rw [heq]
    rfl
  · exact absurd hnil (by decide)

/-! ## Claim C8 -/

/-- Claim C8: the Profile Attribute Extractor never fails on a context that
carries a user: for each of first and last name it takes the form field
first, then the query field, and sets the placeholder `"No name given"` when
neither supplies it; a request omitting both fields yields a candidate with
both names equal to the placeholder and no error. -/
theorem C8_profile_placeholder (req : Request) (ctx : Ctx) (u : OAuthUser)
    (h : ctx.user = some u) :
    extract_firstname req ctx = Except.ok { ctx with user := some { u with
        first_name :=
          match qget req.post "first_name" with
          | some v => v
          | none =>
            match qget req.get "first_name" with
            | some v => v
            | none => "No name given" } } ∧
    extract_lastname req ctx = Except.ok { ctx with user := some { u with
        last_name :=
          match qget req.post "last_name" with
          | some v => v
          | none =>
            match qget req.get "last_name" with
            | some v => v
            | none => "No name given" } } ∧
    (qget req.post "first_name" = none → qget req.get "first_name" = none →
     qget req.post "last_name" = none → qget req.get "last_name" = none →
     (extract_firstname req ctx).bind (extract_lastname req) = Except.ok { ctx with
        user := some { u with first_name := "No name given",
                              last_name := "No name given" } }) := by
  refine ⟨?_, ?_, ?_⟩
  · unfold extract_firstname
    rw [h]
    dsimp only
    cases h1 : qget req.post "first_name" with
    | some v => rfl
    | none =>
      cases h2 : qget req.get "first_name" with
      | some v => rfl
      | none => rfl
  · unfold extract_lastname
    rw [h]
    dsimp only
    cases h1 : qget req.post "last_name" with
    | some v => rfl
    | none =>
      cases h2 : qget req.get "last_name" with
      | some v => rfl
      | none => rfl
  · intro h1 h2 h3 h4
    unfold extract_firstname extract_lastname
    rw [h]
    dsimp only
    rw [h1, h2]
    dsimp only [Except.bind]
    rw [h3, h4]

/-- Witness for C8: `reqW` omits both profile fields, so the candidate keeps
both placeholders and no error is raised. -/
theorem C8_profile_placeholder_witness :
    (extract_firstname reqW ctxW2).bind (extract_lastname reqW) = Except.ok ctxW2 := by
  have h := (C8_profile_placeholder reqW ctxW2 userW (by rfl)).2.2
      (by rfl) (by rfl) (by rfl) (by rfl)
  rw [h]
  rfl

/-! ## Claim C9 -/

/-- Claim C9: the Account Status Extractor never fails on a context carrying
a user: it reads `account_verified` from the form field first, then the
query field; when present in either source the user's verified flag is set to
that value, and when absent from both it is set to Python `False`. -/
theorem C9_account_status (req : Request) (ctx : Ctx) (u : OAuthUser)
    (h : ctx.user = some u) :
    (∃ ctx1, extract_active req ctx = Except.ok ctx1) ∧
    (∀ v, qget req.post "account_verified" = some v →
        extract_active req ctx = Except.ok { ctx with user := some { u with
          account_is_verified := some (PyVal.str v) } }) ∧
    (∀ v, qget req.post "account_verified" = none →
        qget req.get "account_verified" = some v →
        extract_active req ctx = Except.ok { ctx with user := some { u with
          account_is_verified := some (PyVal.str v) } }) ∧
    (qget req.post "account_verified" = none →
        qget req.get "account_verified" = none →
        extract_active req ctx = Except.ok { ctx with
          user := some { u with account_is_verified := some (PyVal.bool false) },
          account_verified := some false }) := by
  refine ⟨?_, ?_, ?_, ?_⟩
  · unfold extract_active
    rw [h]
    dsimp only
    cases h1 : qget req.post "account_verified" with
    | some v => exact ⟨_, rfl⟩
    | none =>
      cases h2 : qget req.get "account_verified" with
      | some v => exact ⟨_, rfl⟩
      | none => exact ⟨_, rfl⟩
  · intro v h1
    unfold extract_active
    rw [h]
    dsimp only
    rw [h1]
  · intro v h1 h2
    unfold extract_active
    rw [h]
    dsimp only
    rw [h1]
    dsimp only
    rw [h2]
  · intro h1 h2
    unfold extract_active
    rw [h]
    dsimp only
    rw [h1]
    dsimp only
    rw [h2]

/-- Witness for C9: `reqW` omits `account_verified`, so the flag resolves to
Python `False`. -/
theorem C9_account_status_witness :
    extract_active reqW ctxW2 = Except.ok { ctxW2 with
      user := some { userW with account_is_verified := some (PyVal.bool false) },
      account_verified := some false } :=
  (C9_account_status reqW ctxW2 userW (by rfl)).2.2.2 (by rfl) (by rfl)

/-! ## Claim C10 -/

/-- Claim C10: when `account_verified` is supplied (form first, else query),
the user's flag is assigned the raw string value verbatim — no boolean
parsing — so any non-empty string, including `"false"` and `"0"`, leaves the
flag truthy under Python truthiness rather than boolean false. -/
theorem C10_verbatim_flag (req : Request) (ctx : Ctx) (u : OAuthUser) (v : String)
    (h : ctx.user = some u)
    (hv : qget req.post "account_verified" = some v ∨
          (qget req.post "account_verified" = none ∧
           qget req.get "account_verified" = some v)) :
    (∃ ctx1 u1, extract_active req ctx = Except.ok ctx1 ∧ ctx1.user = some u1 ∧
        u1.account_is_verified = some (PyVal.str v)) ∧
    (v ≠ "" → pyTruthy (PyVal.str v) = true) ∧
    pyTruthy (PyVal.str "false") = true ∧
    pyTruthy (PyVal.str "0") = true := by
  refine ⟨?_, ?_, by rfl, by rfl⟩
  · unfold extract_active
    rw [h]
    dsimp only
    rcases hv with h1 | ⟨h1, h2⟩
    · rw [h1]
      exact ⟨_, _, rfl, rfl, rfl⟩
    · rw [h1]
      dsimp only
      rw [h2]
      exact ⟨_, _, rfl, rfl, rfl⟩
  · intro hne
    unfold pyTruthy
    rw [Bool.not_eq_true', Bool.eq_false_iff]
    intro hemp
    exact hne ((String.isEmpty_iff v).mp hemp)

/-- Witness for C10: the string `"false"` is stored verbatim and is truthy. -/
theorem C10_verbatim_flag_witness :
    (∃ ctx1 u1, extract_active reqVerifiedFalse ctxW2 = Except.ok ctx1 ∧
        ctx1.user = some u1 ∧ u1.account_is_verified = some (PyVal.str "false")) ∧
    pyTruthy (PyVal.str "false") = true := by
  have h := C10_verbatim_flag reqVerifiedFalse ctxW2 userW "false" (by rfl)
      (Or.inl (by rfl))
  exact ⟨h.1, h.2.2.1⟩

/-! ## Claim C1: pipeline order and fail-fast -/

theorem extract_username_user (env : Env) (req : Request) (ctx ctx' : Ctx)
    (h : extract_username env req ctx = Except.ok ctx') : ∃ u, ctx'.user = some u := by
  unfold extract_username at h
  repeat' split at h
  all_goals cases h
  all_goals exact ⟨_, rfl⟩

theorem extract_active_user (req : Request) (ctx : Ctx) (u : OAuthUser)
    (h : ctx.user = some u) :
    ∃ ctx1 u1, extract_active req ctx = Except.ok ctx1 ∧ ctx1.user = some u1 := by
  unfold extract_active
  rw [h]
  dsimp only
  cases qget req.post "account_verified" with
  | some v => exact ⟨_, _, rfl, rfl⟩
  | none =>
    cases qget req.get "account_verified" with
    | some v => exact ⟨_, _, rfl, rfl⟩
    | none => exact ⟨_, _, rfl, rfl⟩

theorem extract_firstname_user (req : Request) (ctx : Ctx) (u : OAuthUser)
    (h : ctx.user = some u) :
    ∃ ctx1 u1, extract_firstname req ctx = Except.ok ctx1 ∧ ctx1.user = some u1 := by
  unfold extract_firstname
  rw [h]
  dsimp only
  cases qget req.post "first_name" with
  | some v => exact ⟨_, _, rfl, rfl⟩
  | none =>
    cases qget req.get "first_name" with
    | some v => exact ⟨_, _, rfl, rfl⟩
    | none => exact ⟨_, _, rfl, rfl⟩

theorem extract_lastname_user (req : Request) (ctx : Ctx) (u : OAuthUser)
    (h : ctx.user = some u) :
    ∃ ctx1 u1, extract_lastname req ctx = Except.ok ctx1 ∧ ctx1.user = some u1 := by
  unfold extract_lastname
  rw [h]
  dsimp only
  cases qget req.post "last_name" with
  | some v => exact ⟨_, _, rfl, rfl⟩
  | none =>
    cases qget req.get "last_name" with
    | some v => exact ⟨_, _, rfl, rfl⟩
    | none => exact ⟨_, _, rfl, rfl⟩

/-- The instrumented pipeline computes the same result as the decorator. -/
theorem decoratorTrace_snd (env : Env) (req : Request) :
    (decoratorTrace env req).2 = decorator env req := by
  unfold decoratorTrace decorator
  cases extract_client env req initialCtx with
  | error e => rfl
  | ok ctx1 =>
    dsimp only
    cases extract_username env req ctx1 with
    | error e => rfl
    | ok ctx2 =>
      dsimp only
      cases extract_active req ctx2 with
      | error e => rfl
      | ok ctx3 =>
        dsimp only
        cases extract_firstname req ctx3 with
        | error e => rfl
        | ok ctx4 =>
          dsimp only
          cases extract_lastname req ctx4 with
          | error e => rfl
          | ok ctx5 => rfl

/-- Case characterization of the instrumented pipeline: the client stage
fails and only it ran; or it succeeded and the username stage fails with
exactly the two required stages run; or both succeeded, every optional stage
ran and succeeded, and the handler was invoked. -/
theorem decoratorTrace_spec (env : Env) (req : Request) :
    (∃ e, extract_client env req initialCtx = Except.error e ∧
        decoratorTrace env req = ([Stage.client], Except.error e)) ∨
    (∃ ctx1, extract_client env req initialCtx = Except.ok ctx1 ∧
      ((∃ e, extract_username env req ctx1 = Except.error e ∧
          decoratorTrace env req = ([Stage.client, Stage.username], Except.error e)) ∨
       (∃ ctx2 ctx5, extract_username env req ctx1 = Except.ok ctx2 ∧
          decoratorTrace env req =
            ([Stage.client, Stage.username, Stage.active, Stage.firstname,
              Stage.lastname, Stage.handler], Except.ok ctx5)))) := by
  unfold decoratorTrace
  cases hc : extract_client env req initialCtx with
  | error e => exact Or.inl ⟨e, rfl, rfl⟩
  | ok ctx1 =>
    refine Or.inr ⟨ctx1, rfl, ?_⟩
    dsimp only
    cases hu : extract_username env req ctx1 with
    | error e => exact Or.inl ⟨e, rfl, rfl⟩
    | ok ctx2 =>
      obtain ⟨u2, hu2⟩ := extract_username_user env req ctx1 ctx2 hu
      obtain ⟨ctx3, u3, ha, hu3⟩ := extract_active_user req ctx2 u2 hu2
      obtain ⟨ctx4, u4, hf, hu4⟩ := extract_firstname_user req ctx3 u3 hu3
      obtain ⟨ctx5, u5, hl, hu5⟩ := extract_lastname_user req ctx4 u4 hu4
      refine Or.inr ⟨ctx2, ctx5, rfl, ?_⟩
      dsimp only
      rw [ha]
      dsimp only
      rw [hf]
      dsimp only
      rw [hl]

/-- Claim C1: the pipeline runs Client Authenticator, User Identity
Extractor, Account Status Extractor, Profile first-name, Profile last-name
in exactly that order with the Scope Resolver never run; the first error of
a required stage aborts the pipeline so no later stage runs and the handler
is not invoked; the handler is invoked exactly when both required stages
succeed; and the instrumented trace computes the decorator's result. -/
theorem C1_pipeline_order (env : Env) (req : Request) :
    (∀ e, extract_client env req initialCtx = Except.error e →
        decoratorTrace env req = ([Stage.client], Except.error e)) ∧
    (∀ ctx1 e, extract_client env req initialCtx = Except.ok ctx1 →
        extract_username env req ctx1 = Except.error e →
        decoratorTrace env req = ([Stage.client, Stage.username], Except.error e)) ∧
    (∀ ctx1 ctx2, extract_client env req initialCtx = Except.ok ctx1 →
        extract_username env req ctx1 = Except.ok ctx2 →
        (decoratorTrace env req).1 = [Stage.client, Stage.username, Stage.active,
            Stage.firstname, Stage.lastname, Stage.handler] ∧
        ∃ ctx', (decoratorTrace env req).2 = Except.ok ctx') ∧
    (Stage.handler ∈ (decoratorTrace env req).1 ↔
        ∃ ctx1 ctx2, extract_client env req initialCtx = Except.ok ctx1 ∧
          extract_username env req ctx1 = Except.ok ctx2) ∧
    Stage.scope ∉ (decoratorTrace env req).1 ∧
    (decoratorTrace env req).2 = decorator env req := by
  have hs := decoratorTrace_spec env req
  refine ⟨?_, ?_, ?_, ?_, ?_, decoratorTrace_snd env req⟩
  · intro e he
    rcases hs with ⟨e', he', ht⟩ | ⟨ctx1, hc', -⟩
    · rw [he] at he'
      cases he'
      exact ht
    · rw [he] at hc'
      cases hc'
  · intro ctx1 e hc hu
    rcases hs with ⟨e', he', -⟩ | ⟨ctx1', hc', hrest⟩
    · rw [hc] at he'
      cases he'
    · rw [hc] at hc'
      cases hc'
      rcases hrest with ⟨e', hu', ht⟩ | ⟨ctx2, ctx5, hu', -⟩
      · rw [hu] at hu'
        cases hu'
        exact ht
      · rw [hu] at hu'
        cases hu'
  · intro ctx1 ctx2 hc hu
    rcases hs with ⟨e', he', -⟩ | ⟨ctx1', hc', hrest⟩
    · rw [hc] at he'
      cases he'
    · rw [hc] at hc'
      cases hc'
      rcases hrest with ⟨e', hu', -⟩ | ⟨ctx2', ctx5, hu', ht⟩
      · rw [hu] at hu'
        cases hu'
      · exact ⟨by rw [ht], ctx5, by rw [ht]⟩
  · constructor
    · intro hmem
      rcases hs with ⟨e', he', ht⟩ | ⟨ctx1, hc, hrest⟩
      · rw [ht] at hmem
        simp at hmem
      · rcases hrest with ⟨e', hu', ht⟩ | ⟨ctx2, ctx5, hu', ht⟩
        · rw [ht] at hmem
          simp at hmem
        · exact ⟨ctx1, ctx2, hc, hu'⟩
    · rintro ⟨ctx1, ctx2, hc, hu⟩
      rcases hs with ⟨e', he', -⟩ | ⟨ctx1', hc', hrest⟩
      · rw [hc] at he'
        cases he'
      · rw [hc] at hc'
        cases hc'
        rcases hrest with ⟨e', hu', -⟩ | ⟨ctx2', ctx5, hu', ht⟩
        · rw [hu] at hu'
          cases hu'
        · rw [ht]
          simp
  · rcases hs with ⟨e', he', ht⟩ | ⟨ctx1, hc, hrest⟩
    · rw [ht]
      simp
    · rcases hrest with ⟨e', hu', ht⟩ | ⟨ctx2, ctx5, hu', ht⟩ <;> rw [ht] <;> simp

/-- Witness for C1: on the fully valid `reqW` all five stages run in order,
the handler is invoked, and the scope stage never runs. -/
theorem C1_pipeline_order_witness :
    (decoratorTrace envW reqW).1 = [Stage.client, Stage.username, Stage.active,
        Stage.firstname, Stage.lastname, Stage.handler] ∧
    Stage.scope ∉ (decoratorTrace envW reqW).1 := by
  have h := C1_pipeline_order envW reqW
  exact ⟨(h.2.2.1 ctxW1 ctxW2 (by rfl) (by rfl)).1, h.2.2.2.2.1⟩

end OAuth2
